import Mathlib

/-!
Shallow embedding of the tp-rs throughput counter (src/tp.rs).

Embedding notes:
* Rust std::time::Duration is a pair of whole seconds (u64) and sub-second
  nanoseconds (below 10^9); both are modelled on Nat.
* u32 arithmetic is modelled on Nat with explicit reduction mod 2^32: the
  `as u32` truncation inside `throughput`, and wrapping addition in `report`
  (the release-mode semantics of `+=` on u32).
* f64 arithmetic is modelled exactly over the rationals.  For the values that
  occur here the f64 test `denominator == 0.0` holds exactly when the rational
  denominator is 0 (both summands are nonnegative, exact integer conversions,
  and when nonzero they are far above the underflow threshold), so the branch
  structure of the code is preserved; the division result agrees with the
  rational value up to floating-point rounding.
* A TimeSource is a type T together with a distinguished instant `now` and a
  function `elapsed`; the deterministic test doubles of the test suite are
  instances whose `elapsed` is a constant function.
-/

namespace Tp

/-- Model of std::time::Duration: whole seconds and sub-second nanoseconds. -/
structure Duration where
  secs : Nat
  nanos : Nat
deriving DecidableEq

/-- Duration::as_secs — the whole-seconds part (a u64 in Rust). -/
def Duration.as_secs (d : Duration) : Nat := d.secs

/-- Duration::subsec_millis — the sub-second part at millisecond granularity. -/
def Duration.subsec_millis (d : Duration) : Nat := d.nanos / 1000000

/-- The TimeSource trait: a capability producing a current instant and an
elapsed duration since a captured instant. -/
structure TimeSource (T : Type) where
  now : T
  elapsed : T → Duration

/-- The unsynchronized core counter: a window-start instant and a u32 sum. -/
structure Throughput (T : Type) where
  initial_time : T
  sum : Nat
deriving DecidableEq

variable {T : Type}

/-- Throughput::new — sum = 0, initial_time = now(). -/
def Throughput.new (ts : TimeSource T) : Throughput T :=
  { sum := 0, initial_time := ts.now }

/-- Throughput::report — self.sum += value, u32 wrapping (release semantics). -/
def Throughput.report (s : Throughput T) (value : Nat) : Throughput T :=
  { s with sum := (s.sum + value) % 2 ^ 32 }

/-- Throughput::reset — initial_time = now(), sum = 0. -/
def Throughput.reset (ts : TimeSource T) (s : Throughput T) : Throughput T :=
  { initial_time := ts.now, sum := 0 }

/-- The denominator computed inside Throughput::throughput:
f64::from(elapsed.as_secs() as u32) + f64::from(elapsed.subsec_millis()) / 1000.0,
with `as u32` as reduction mod 2^32 and f64 values modelled over the rationals. -/
def denominator (elapsed : Duration) : ℚ :=
  ((elapsed.as_secs % 2 ^ 32 : ℕ) : ℚ) + ((elapsed.subsec_millis : ℕ) : ℚ) / 1000

/-- Throughput::throughput — returns the optional rate and the post-state
(the method always ends in self.reset()). -/
def Throughput.throughput (ts : TimeSource T) (s : Throughput T) :
    Option ℚ × Throughput T :=
  ((if denominator (ts.elapsed s.initial_time) = 0 then none
    else some ((s.sum : ℚ) / denominator (ts.elapsed s.initial_time))),
   Throughput.reset ts s)

/-- The blocking wrapper: a Mutex around one Throughput.  In this sequential
embedding, lock().unwrap() is acquisition of the sole inner counter. -/
structure ThroughputSynchronized (T : Type) where
  tp_unsynchronized : Throughput T
deriving DecidableEq

/-- ThroughputSynchronized::new. -/
def ThroughputSynchronized.new (ts : TimeSource T) : ThroughputSynchronized T :=
  { tp_unsynchronized := Throughput.new ts }

/-- ThroughputSynchronized::report — delegates under the lock. -/
def ThroughputSynchronized.report (s : ThroughputSynchronized T) (value : Nat) :
    ThroughputSynchronized T :=
  { tp_unsynchronized := s.tp_unsynchronized.report value }

/-- ThroughputSynchronized::reset — delegates under the lock. -/
def ThroughputSynchronized.reset (ts : TimeSource T) (s : ThroughputSynchronized T) :
    ThroughputSynchronized T :=
  { tp_unsynchronized := Throughput.reset ts s.tp_unsynchronized }

/-- ThroughputSynchronized::throughput — delegates under the lock. -/
def ThroughputSynchronized.throughput (ts : TimeSource T) (s : ThroughputSynchronized T) :
    Option ℚ × ThroughputSynchronized T :=
  ((Throughput.throughput ts s.tp_unsynchronized).1,
   { tp_unsynchronized := (Throughput.throughput ts s.tp_unsynchronized).2 })

namespace tokio_async

/-- The cooperative-async wrapper: a tokio Mutex around one Throughput.  In
this sequential embedding, lock().await is acquisition of the inner counter. -/
structure ThroughputAsyncSynchronized (T : Type) where
  tp_unsynchronized : Throughput T
deriving DecidableEq

/-- ThroughputAsyncSynchronized::new. -/
def ThroughputAsyncSynchronized.new (ts : TimeSource T) :
    ThroughputAsyncSynchronized T :=
  { tp_unsynchronized := Throughput.new ts }

/-- ThroughputAsyncSynchronized::report — delegates under the async lock. -/
def ThroughputAsyncSynchronized.report (s : ThroughputAsyncSynchronized T)
    (value : Nat) : ThroughputAsyncSynchronized T :=
  { tp_unsynchronized := s.tp_unsynchronized.report value }

/-- ThroughputAsyncSynchronized::reset — delegates under the async lock. -/
def ThroughputAsyncSynchronized.reset (ts : TimeSource T)
    (s : ThroughputAsyncSynchronized T) : ThroughputAsyncSynchronized T :=
  { tp_unsynchronized := Throughput.reset ts s.tp_unsynchronized }

/-- ThroughputAsyncSynchronized::throughput — delegates under the async lock. -/
def ThroughputAsyncSynchronized.throughput (ts : TimeSource T)
    (s : ThroughputAsyncSynchronized T) : Option ℚ × ThroughputAsyncSynchronized T :=
  ((Throughput.throughput ts s.tp_unsynchronized).1,
   { tp_unsynchronized := (Throughput.throughput ts s.tp_unsynchronized).2 })

end tokio_async

/-- One call of the public interface: report(value), reset(), or throughput(). -/
inductive Op where
  | report (value : Nat)
  | reset
  | throughput
deriving DecidableEq

/-- Run a sequence of calls on the unsynchronized counter, collecting the
results of the throughput() calls. -/
def Throughput.run (ts : TimeSource T) : Throughput T → List Op → List (Option ℚ) × Throughput T
  | s, [] => ([], s)
  | s, Op.report v :: ops => Throughput.run ts (s.report v) ops
  | s, Op.reset :: ops => Throughput.run ts (Throughput.reset ts s) ops
  | s, Op.throughput :: ops =>
      let r := Throughput.throughput ts s
      let rest := Throughput.run ts r.2 ops
      (r.1 :: rest.1, rest.2)

/-- Run a sequence of calls on the blocking wrapper. -/
def ThroughputSynchronized.run (ts : TimeSource T) :
    ThroughputSynchronized T → List Op → List (Option ℚ) × ThroughputSynchronized T
  | s, [] => ([], s)
  | s, Op.report v :: ops => ThroughputSynchronized.run ts (s.report v) ops
  | s, Op.reset :: ops => ThroughputSynchronized.run ts (ThroughputSynchronized.reset ts s) ops
  | s, Op.throughput :: ops =>
      let r := ThroughputSynchronized.throughput ts s
      let rest := ThroughputSynchronized.run ts r.2 ops
      (r.1 :: rest.1, rest.2)

/-- Run a sequence of calls on the async wrapper. -/
def tokio_async.ThroughputAsyncSynchronized.run (ts : TimeSource T) :
    tokio_async.ThroughputAsyncSynchronized T → List Op →
      List (Option ℚ) × tokio_async.ThroughputAsyncSynchronized T
  | s, [] => ([], s)
  | s, Op.report v :: ops =>
      tokio_async.ThroughputAsyncSynchronized.run ts (s.report v) ops
  | s, Op.reset :: ops =>
      tokio_async.ThroughputAsyncSynchronized.run ts
        (tokio_async.ThroughputAsyncSynchronized.reset ts s) ops
  | s, Op.throughput :: ops =>
      let r := tokio_async.ThroughputAsyncSynchronized.throughput ts s
      let rest := tokio_async.ThroughputAsyncSynchronized.run ts r.2 ops
      (r.1 :: rest.1, rest.2)

theorem initial_time_foldl_report (vs : List Nat) (s : Throughput T) :
    (vs.foldl Throughput.report s).initial_time = s.initial_time := by
  induction vs generalizing s with
  | nil => rfl
  | cons v vs ih => simpa [Throughput.report] using ih (s.report v)

theorem sum_foldl_report (vs : List Nat) (s : Throughput T) (hs : s.sum < 2 ^ 32) :
    (vs.foldl Throughput.report s).sum = (s.sum + vs.sum) % 2 ^ 32 := by
  induction vs generalizing s with
  | nil => simpa using (Nat.mod_eq_of_lt hs).symm
  | cons v vs ih =>
      have h1 : (s.report v).sum = (s.sum + v) % 2 ^ 32 := rfl
      have h2 := ih (s.report v) (by rw [h1]; exact Nat.mod_lt _ (by norm_num))
      simp only [List.foldl_cons, h2, h1, List.sum_cons]
      rw [Nat.mod_add_mod, Nat.add_assoc]

/-- C1 (amended): on a fresh counter, report(v1) ... report(vn) followed by
throughput() with a time source reporting an elapsed time of exactly E whole
seconds returns some of the total divided by E, provided 0 < E < 2^32 (so the
u64-to-u32 truncation of the seconds is the identity) and the total of the
reported values stays below 2^32 (no u32 wrap of the sum). -/
theorem c1_rate_is_sum_div_elapsed_secs (ts : TimeSource T) (vs : List Nat) (E : Nat)
    (hE : 0 < E) (hElt : E < 2 ^ 32) (hsum : vs.sum < 2 ^ 32)
    (helapsed : ts.elapsed ts.now = ⟨E, 0⟩) :
    (Throughput.throughput ts (vs.foldl Throughput.report (Throughput.new ts))).1
      = some ((vs.sum : ℚ) / (E : ℚ)) := by
  have hinit : (vs.foldl Throughput.report (Throughput.new ts)).initial_time = ts.now := by
    rw [initial_time_foldl_report]; rfl
  have hs : (vs.foldl Throughput.report (Throughput.new ts)).sum = vs.sum := by
    rw [sum_foldl_report vs _ (by simp [Throughput.new])]
    simp only [Throughput.new]
    simp
    omega
  have hden : denominator (ts.elapsed (vs.foldl Throughput.report (Throughput.new ts)).initial_time)
      = (E : ℚ) := by
    rw [hinit, helapsed]
    simp [denominator, Duration.as_secs, Duration.subsec_millis]
    omega
  have hne : (E : ℚ) ≠ 0 := Nat.cast_ne_zero.mpr hE.ne'
  simp [Throughput.throughput, hden, hne, hs]

/-- C1 counterexample: the claim quantifies over every whole-second elapsed
time E > 0, but at E = 2^32 (with reports 1, 1) throughput() returns none, not
some ((1 + 1) / E): the seconds are truncated u64 to u32 before the division. -/
theorem c1_counterexample :
    (Throughput.throughput (⟨(), fun _ => ⟨2 ^ 32, 0⟩⟩ : TimeSource Unit)
        (([1, 1] : List Nat).foldl Throughput.report
          (Throughput.new ⟨(), fun _ => ⟨2 ^ 32, 0⟩⟩))).1
      ≠ some (((1 + 1 : Nat) : ℚ) / ((2 ^ 32 : Nat) : ℚ)) := by
  have hden : denominator (⟨2 ^ 32, 0⟩ : Duration) = 0 := by
    simp [denominator, Duration.as_secs, Duration.subsec_millis]
  have h1 : (Throughput.throughput (⟨(), fun _ => ⟨2 ^ 32, 0⟩⟩ : TimeSource Unit)
      (([1, 1] : List Nat).foldl Throughput.report
        (Throughput.new ⟨(), fun _ => ⟨2 ^ 32, 0⟩⟩))).1 = none := by
    show (if denominator (⟨2 ^ 32, 0⟩ : Duration) = 0 then none else some _) = none
    rw [if_pos hden]
  rw [h1]
  simp

/-- C1 witness: with a deterministic 10-second time source, report(1);
report(1); throughput() returns some 0.2. -/
theorem c1_witness :
    (Throughput.throughput (⟨(), fun _ => ⟨10, 0⟩⟩ : TimeSource Unit)
        (([1, 1] : List Nat).foldl Throughput.report
          (Throughput.new ⟨(), fun _ => ⟨10, 0⟩⟩))).1
      = some ((2 : ℚ) / 10) := by
  have h := c1_rate_is_sum_div_elapsed_secs (T := Unit) ⟨(), fun _ => ⟨10, 0⟩⟩ [1, 1] 10
    (by norm_num) (by norm_num) (by norm_num) rfl
  simpa using h

/-- C2: when the elapsed duration is under one millisecond (zero whole seconds
and fewer than 10^6 nanoseconds) the denominator is 0, throughput() returns
none, and the state is still reset: initial_time = now() and sum = 0. -/
theorem c2_submillisecond_elapsed_returns_none (ts : TimeSource T) (s : Throughput T)
    (hsecs : (ts.elapsed s.initial_time).secs = 0)
    (hnanos : (ts.elapsed s.initial_time).nanos < 1000000) :
    (Throughput.throughput ts s).1 = none ∧
      (Throughput.throughput ts s).2.initial_time = ts.now ∧
      (Throughput.throughput ts s).2.sum = 0 ∧
      (Throughput.throughput ts s).2 = Throughput.reset ts s := by
  have hden : denominator (ts.elapsed s.initial_time) = 0 := by
    simp [denominator, Duration.as_secs, Duration.subsec_millis, hsecs,
      Nat.div_eq_of_lt hnanos]
  exact ⟨by simp [Throughput.throughput, hden], rfl, rfl, rfl⟩

/-- C2 witness: a time source whose elapsed time is 999999 nanoseconds (just
under one millisecond) makes throughput() return none and reset the state. -/
theorem c2_witness :
    (Throughput.throughput (⟨(), fun _ => ⟨0, 999999⟩⟩ : TimeSource Unit) ⟨(), 7⟩).1 = none ∧
      (Throughput.throughput (⟨(), fun _ => ⟨0, 999999⟩⟩ : TimeSource Unit) ⟨(), 7⟩).2.initial_time
        = () ∧
      (Throughput.throughput (⟨(), fun _ => ⟨0, 999999⟩⟩ : TimeSource Unit) ⟨(), 7⟩).2.sum = 0 ∧
      (Throughput.throughput (⟨(), fun _ => ⟨0, 999999⟩⟩ : TimeSource Unit) ⟨(), 7⟩).2
        = Throughput.reset (⟨(), fun _ => ⟨0, 999999⟩⟩ : TimeSource Unit) ⟨(), 7⟩ :=
  c2_submillisecond_elapsed_returns_none (⟨(), fun _ => ⟨0, 999999⟩⟩ : TimeSource Unit)
    ⟨(), 7⟩ rfl (by norm_num)

/-- C3: every throughput() call leaves the counter in the fresh state: sum = 0
and initial_time = now(), equal to a newly created instance; hence a second
back-to-back throughput() behaves exactly as on a fresh instance. -/
theorem c3_throughput_always_resets (ts : TimeSource T) (s : Throughput T) :
    (Throughput.throughput ts s).2.sum = 0 ∧
      (Throughput.throughput ts s).2.initial_time = ts.now ∧
      (Throughput.throughput ts s).2 = Throughput.new ts ∧
      Throughput.throughput ts (Throughput.throughput ts s).2
        = Throughput.throughput ts (Throughput.new ts) :=
  ⟨rfl, rfl, rfl, rfl⟩

/-- C4: no prior sum leaks across a window boundary: after reset() or after a
throughput() call, any reports followed by throughput() produce exactly the
result the same reports produce on a freshly created counter. -/
theorem c4_no_leak_across_reset (ts : TimeSource T) (s : Throughput T) (vs : List Nat) :
    Throughput.throughput ts (vs.foldl Throughput.report (Throughput.reset ts s))
        = Throughput.throughput ts (vs.foldl Throughput.report (Throughput.new ts)) ∧
      Throughput.throughput ts (vs.foldl Throughput.report (Throughput.throughput ts s).2)
        = Throughput.throughput ts (vs.foldl Throughput.report (Throughput.new ts)) :=
  ⟨rfl, rfl⟩

/-- C5 counterexample: report uses u32 wrapping addition, so with sum at
2^32 - 1 a report(1) wraps the sum to 0: the new sum is neither the old sum
plus 1 nor at least the old sum. -/
theorem c5_counterexample :
    ((⟨(), 2 ^ 32 - 1⟩ : Throughput Unit).report 1).sum = 0 ∧
      ¬ ((⟨(), 2 ^ 32 - 1⟩ : Throughput Unit).report 1).sum = 2 ^ 32 - 1 + 1 ∧
      ¬ 2 ^ 32 - 1 ≤ ((⟨(), 2 ^ 32 - 1⟩ : Throughput Unit).report 1).sum := by
  refine ⟨?_, ?_, ?_⟩ <;> norm_num [Throughput.report]

/-- C5 (amended): provided the u32 addition does not overflow
(sum + value < 2^32), report(value) sets sum to exactly sum + value, so sum
never decreases between resets; sum is a natural number, never negative. -/
theorem c5_report_adds_value (s : Throughput T) (value : Nat)
    (h : s.sum + value < 2 ^ 32) :
    (s.report value).sum = s.sum + value ∧ s.sum ≤ (s.report value).sum := by
  have hmod : (s.sum + value) % 2 ^ 32 = s.sum + value := Nat.mod_eq_of_lt h
  have h2 : (s.report value).sum = s.sum + value := by
    simpa [Throughput.report] using hmod
  exact ⟨h2, by rw [h2]; exact Nat.le_add_right _ _⟩

/-- C5 witness: reporting 3 on a counter with sum 5 yields sum 8 ≥ 5. -/
theorem c5_witness :
    ((⟨(), 5⟩ : Throughput Unit).report 3).sum = 5 + 3 ∧
      5 ≤ ((⟨(), 5⟩ : Throughput Unit).report 3).sum :=
  c5_report_adds_value (⟨(), 5⟩ : Throughput Unit) 3 (by norm_num)

/-- C6: only the millisecond granularity of the sub-second part of the elapsed
duration affects throughput(): any two configurations agreeing on the sum, on
the whole seconds and on the sub-second milliseconds of the elapsed duration
produce the same returned rate, so the sub-millisecond remainder is ignored. -/
theorem c6_millisecond_granularity (ts ts2 : TimeSource T) (s s2 : Throughput T)
    (hsum : s.sum = s2.sum)
    (hsecs : (ts.elapsed s.initial_time).secs = (ts2.elapsed s2.initial_time).secs)
    (hmillis : (ts.elapsed s.initial_time).subsec_millis
      = (ts2.elapsed s2.initial_time).subsec_millis) :
    (Throughput.throughput ts s).1 = (Throughput.throughput ts2 s2).1 := by
  have hden : denominator (ts.elapsed s.initial_time)
      = denominator (ts2.elapsed s2.initial_time) := by
    simp only [denominator, Duration.as_secs, hsecs, hmillis]
  simp only [Throughput.throughput, hden, hsum]

/-- C6 witness: elapsed durations of 3 s + 7123456 ns and 3 s + 7999999 ns
(same millisecond count 7) give the same rate for sum 4. -/
theorem c6_witness :
    (Throughput.throughput (⟨(), fun _ => ⟨3, 7123456⟩⟩ : TimeSource Unit) ⟨(), 4⟩).1
      = (Throughput.throughput (⟨(), fun _ => ⟨3, 7999999⟩⟩ : TimeSource Unit) ⟨(), 4⟩).1 :=
  c6_millisecond_granularity (⟨(), fun _ => ⟨3, 7123456⟩⟩ : TimeSource Unit)
    (⟨(), fun _ => ⟨3, 7999999⟩⟩ : TimeSource Unit) ⟨(), 4⟩ ⟨(), 4⟩ rfl rfl (by norm_num [Duration.subsec_millis])

theorem sync_run_spec (ts : TimeSource T) (ops : List Op) (s : Throughput T) :
    ThroughputSynchronized.run ts ⟨s⟩ ops
      = ((Throughput.run ts s ops).1, ⟨(Throughput.run ts s ops).2⟩) := by
  induction ops generalizing s with
  | nil => rfl
  | cons op ops ih =>
      cases op with
      | report v =>
          simp only [ThroughputSynchronized.run, Throughput.run]
          exact ih (s.report v)
      | reset =>
          simp only [ThroughputSynchronized.run, Throughput.run]
          exact ih (Throughput.reset ts s)
      | throughput =>
          simp only [ThroughputSynchronized.run, Throughput.run,
            ThroughputSynchronized.throughput]
          rw [ih ((Throughput.throughput ts s).2)]

theorem async_run_spec (ts : TimeSource T) (ops : List Op) (s : Throughput T) :
    tokio_async.ThroughputAsyncSynchronized.run ts ⟨s⟩ ops
      = ((Throughput.run ts s ops).1, ⟨(Throughput.run ts s ops).2⟩) := by
  induction ops generalizing s with
  | nil => rfl
  | cons op ops ih =>
      cases op with
      | report v =>
          simp only [tokio_async.ThroughputAsyncSynchronized.run, Throughput.run]
          exact ih (s.report v)
      | reset =>
          simp only [tokio_async.ThroughputAsyncSynchronized.run, Throughput.run]
          exact ih (Throughput.reset ts s)
      | throughput =>
          simp only [tokio_async.ThroughputAsyncSynchronized.run, Throughput.run,
            tokio_async.ThroughputAsyncSynchronized.throughput]
          rw [ih ((Throughput.throughput ts s).2)]

/-- C7: both wrappers are behaviorally identical to the bare counter and hence
to each other: for every sequence of calls and every time source, the blocking
wrapper and the async wrapper yield the same list of throughput() results as
direct calls on the inner Throughput and leave the inner counter in the same
state, and the two wrappers agree with each other. -/
theorem c7_wrappers_equivalent (ts : TimeSource T) (s : Throughput T) (ops : List Op) :
    (ThroughputSynchronized.run ts ⟨s⟩ ops).1 = (Throughput.run ts s ops).1 ∧
      (ThroughputSynchronized.run ts ⟨s⟩ ops).2.tp_unsynchronized
        = (Throughput.run ts s ops).2 ∧
      (tokio_async.ThroughputAsyncSynchronized.run ts ⟨s⟩ ops).1
        = (Throughput.run ts s ops).1 ∧
      (tokio_async.ThroughputAsyncSynchronized.run ts ⟨s⟩ ops).2.tp_unsynchronized
        = (Throughput.run ts s ops).2 ∧
      (ThroughputSynchronized.run ts ⟨s⟩ ops).1
        = (tokio_async.ThroughputAsyncSynchronized.run ts ⟨s⟩ ops).1 ∧
      (ThroughputSynchronized.run ts ⟨s⟩ ops).2.tp_unsynchronized
        = (tokio_async.ThroughputAsyncSynchronized.run ts ⟨s⟩ ops).2.tp_unsynchronized := by
  rw [sync_run_spec, async_run_spec]
  exact ⟨rfl, rfl, rfl, rfl, rfl, rfl⟩

/-- C9: the whole-seconds part of the elapsed duration is truncated from u64
to u32 before entering the denominator: the denominator is invariant under
adding 2^32 seconds to the elapsed duration, and concretely with an elapsed
time of exactly 2^32 seconds and sum 5, throughput() returns none — not
some (5 / 2^32), the rate over the true elapsed time. -/
theorem c9_u32_truncation_of_seconds :
    (∀ d : Duration, denominator ⟨d.secs + 2 ^ 32, d.nanos⟩ = denominator d) ∧
      (Throughput.throughput (⟨(), fun _ => ⟨2 ^ 32, 0⟩⟩ : TimeSource Unit) ⟨(), 5⟩).1
        = none ∧
      (Throughput.throughput (⟨(), fun _ => ⟨2 ^ 32, 0⟩⟩ : TimeSource Unit) ⟨(), 5⟩).1
        ≠ some ((5 : ℚ) / ((2 ^ 32 : Nat) : ℚ)) := by
  have hden : denominator (⟨2 ^ 32, 0⟩ : Duration) = 0 := by
    simp [denominator, Duration.as_secs, Duration.subsec_millis]
  have h1 : (Throughput.throughput (⟨(), fun _ => ⟨2 ^ 32, 0⟩⟩ : TimeSource Unit)
      ⟨(), 5⟩).1 = none := by
    show (if denominator (⟨2 ^ 32, 0⟩ : Duration) = 0 then none else some _) = none
    rw [if_pos hden]
  refine ⟨fun d => ?_, h1, by rw [h1]; simp⟩
  simp [denominator, Duration.as_secs, Duration.subsec_millis, Nat.add_mod_right]

/-- C10: the division is evaluated only on the branch where the denominator is
nonzero: whenever the denominator of the elapsed duration is 0, throughput()
returns none, and whenever it returns some r the denominator was nonzero and
r is exactly the sum divided by that denominator. -/
theorem c10_no_division_by_zero (ts : TimeSource T) (s : Throughput T) :
    (denominator (ts.elapsed s.initial_time) = 0 →
        (Throughput.throughput ts s).1 = none) ∧
      (∀ r : ℚ, (Throughput.throughput ts s).1 = some r →
        denominator (ts.elapsed s.initial_time) ≠ 0 ∧
          r = (s.sum : ℚ) / denominator (ts.elapsed s.initial_time)) := by
  constructor
  · intro h
    simp [Throughput.throughput, h]
  · intro r hr
    by_cases h : denominator (ts.elapsed s.initial_time) = 0
    · simp [Throughput.throughput, h] at hr
    · simp [Throughput.throughput, h] at hr
      exact ⟨h, hr.symm⟩

/-- C10 witness: with a zero-elapsed time source the denominator is 0 and
throughput() returns none. -/
theorem c10_witness :
    (Throughput.throughput (⟨(), fun _ => ⟨0, 0⟩⟩ : TimeSource Unit) ⟨(), 7⟩).1 = none :=
  (c10_no_division_by_zero (⟨(), fun _ => ⟨0, 0⟩⟩ : TimeSource Unit) ⟨(), 7⟩).1
    (by simp [denominator, Duration.as_secs, Duration.subsec_millis])

end Tp
